import Mathlib

/-!
Verification of the tyre rolling-resistance fuel-cost calculator
(`calculate_fuel_costs_by_grade` in `app.py`).

The Python function is embedded shallowly over `ℚ`: every arithmetic
expression of the source is reproduced exactly (the source uses Python
floats; here exact rationals stand for them, which is faithful to the
algebraic structure of the computation). Python raises `ZeroDivisionError`
on division by zero, including `0.0 / 0.0` on floats, so every division
whose divisor is not a nonzero literal constant is modelled with `pydiv`,
returning `Except`. Dictionaries built by insertion are modelled as
association lists, preserving insertion order.
-/

namespace MPG

/-- Errors a call can surface. The source can only raise
`ZeroDivisionError`; `invalidInput` models the domain error named by the
documentation so that its absence can be stated. -/
inductive PyError where
  | zeroDivisionError
  | invalidInput
  deriving DecidableEq, Repr

/-- Python division: raises `ZeroDivisionError` when the divisor is zero
(also for `0.0 / 0.0`), otherwise returns the quotient. -/
def pydiv (a b : ℚ) : Except PyError ℚ :=
  if b = 0 then .error .zeroDivisionError else .ok (a / b)

/-- `mpg_to_l_per_100km = 282.48` (source line 18). -/
def mpg_to_l_per_100km : ℚ := 282.48

/-- `miles_to_km = 1.60934` (source line 19). -/
def miles_to_km : ℚ := 1.60934

/-- `fuel_savings_rate = 0.015` (source line 37). -/
def fuel_savings_rate : ℚ := 0.015

/-- `tyre_grades` dict (source lines 28-34), as an ordered association
list: A=6.5, B=7.2, C=8.4, D=9.8, E=11.0. -/
def tyre_grades : List (String × ℚ) :=
  [("A", 6.5), ("B", 7.2), ("C", 8.4), ("D", 9.8), ("E", 11.0)]

/-- `tyre_grades["A"]` (source line 51). -/
def rrcA : ℚ := 6.5

/-- The loop body of source lines 46-68, recursing over the remaining
grade/RRC pairs. Arguments are the loop-invariant locals
`base_fuel_consumption_l_per_100km`, `annual_mileage`, `fuel_price`
(already divided by 100) and `base_fuel_cost`. Returns the two lists of
non-baseline entries appended by the loop, in iteration order; the first
`ZeroDivisionError` aborts the whole call, as a Python exception would. -/
def gradeLoop (base_fuel_consumption_l_per_100km annual_mileage fuel_price
    base_fuel_cost : ℚ) :
    List (String × ℚ) → Except PyError (List (String × ℚ) × List (String × ℚ))
  | [] => .ok ([], [])
  | (grade, rrc) :: rest =>
    if grade = "A" then
      gradeLoop base_fuel_consumption_l_per_100km annual_mileage fuel_price
        base_fuel_cost rest
    else
      let rrc_increase_percentage := (rrc - rrcA) / rrcA * 100
      let fuel_increase_percentage :=
        fuel_savings_rate * (rrc_increase_percentage / 10)
      let new_fuel_consumption_l_per_100km :=
        base_fuel_consumption_l_per_100km * (1 + fuel_increase_percentage)
      let new_fuel_per_year_l :=
        (new_fuel_consumption_l_per_100km / 100) * (annual_mileage * miles_to_km)
      let new_fuel_cost := new_fuel_per_year_l * fuel_price
      let cost_difference := new_fuel_cost - base_fuel_cost
      match pydiv cost_difference base_fuel_cost with
      | .error e => .error e
      | .ok q =>
        match gradeLoop base_fuel_consumption_l_per_100km annual_mileage
            fuel_price base_fuel_cost rest with
        | .error e => .error e
        | .ok (cs, ps) =>
          .ok ((grade, cost_difference) :: cs, (grade, q * 100) :: ps)

/-- `calculate_fuel_costs_by_grade` (source lines 3-70). The divisions by
the literal constants 100, 10 and 6.5 cannot raise and are kept as plain
field division; the two divisions with runtime divisors
(`mpg_to_l_per_100km / fuel_consumption_mpg`, line 22, and
`cost_difference / base_fuel_cost`, line 68) go through `pydiv`. -/
def calculate_fuel_costs_by_grade (fuel_consumption_mpg annual_mileage
    fuel_price : ℚ) :
    Except PyError (List (String × ℚ) × List (String × ℚ)) :=
  match pydiv mpg_to_l_per_100km fuel_consumption_mpg with
  | .error e => .error e
  | .ok base_fuel_consumption_l_per_100km =>
    let fuel_price := fuel_price / 100
    let base_fuel_per_year_l :=
      (base_fuel_consumption_l_per_100km / 100) * (annual_mileage * miles_to_km)
    let base_fuel_cost := base_fuel_per_year_l * fuel_price
    match gradeLoop base_fuel_consumption_l_per_100km annual_mileage fuel_price
        base_fuel_cost tyre_grades with
    | .error e => .error e
    | .ok (cs, ps) => .ok (("A", 0.00) :: cs, ("A", 0.00) :: ps)

/-! ### Observation helpers -/

/-- The `cost_differences` mapping of a successful call (empty when the
call raised). -/
def absDeltas (m d p : ℚ) : List (String × ℚ) :=
  match calculate_fuel_costs_by_grade m d p with
  | .ok r => r.1
  | .error _ => []

/-- The `percentage_increase` mapping of a successful call (empty when the
call raised). -/
def pctDeltas (m d p : ℚ) : List (String × ℚ) :=
  match calculate_fuel_costs_by_grade m d p with
  | .ok r => r.2
  | .error _ => []

/-- Value stored under grade `g` in an association list (0 when absent). -/
def lookupGrade (l : List (String × ℚ)) (g : String) : ℚ :=
  match l.find? (fun q => q.1 == g) with
  | some q => q.2
  | none => 0

/-! ### Named intermediate quantities of the source, as total functions of
the inputs (defined for nonzero divisors; the evaluation lemma relates
them to the call). -/

/-- `base_fuel_consumption_l_per_100km` (source line 22). -/
def base_fuel_consumption_l_per_100km (m : ℚ) : ℚ := mpg_to_l_per_100km / m

/-- `base_fuel_per_year_l` (source line 40). -/
def base_fuel_per_year_l (m d : ℚ) : ℚ :=
  (base_fuel_consumption_l_per_100km m / 100) * (d * miles_to_km)

/-- `base_fuel_cost` (source line 41), with the price already divided by
100 (source line 25). -/
def base_fuel_cost (m d p : ℚ) : ℚ := base_fuel_per_year_l m d * (p / 100)

/-- `fuel_increase_percentage` for one RRC value (source lines 51-54). -/
def fuel_increase_percentage (rrc : ℚ) : ℚ :=
  fuel_savings_rate * ((rrc - rrcA) / rrcA * 100 / 10)

/-- `cost_difference` for one RRC value (source lines 57-64). -/
def cost_difference (m d p rrc : ℚ) : ℚ :=
  (base_fuel_consumption_l_per_100km m * (1 + fuel_increase_percentage rrc) / 100)
      * (d * miles_to_km) * (p / 100)
    - base_fuel_cost m d p

/-! ### Evaluation lemma -/

theorem base_fuel_cost_ne_zero (m d p : ℚ) (hm : m ≠ 0) (hd : d ≠ 0)
    (hp : p ≠ 0) : base_fuel_cost m d p ≠ 0 := by
  simp only [base_fuel_cost, base_fuel_per_year_l,
    base_fuel_consumption_l_per_100km, mpg_to_l_per_100km, miles_to_km]
  intro h
  rcases mul_eq_zero.mp h with h | h
  · rcases mul_eq_zero.mp h with h | h
    · rcases div_eq_zero_iff.mp h with h | h
      · exact hm (by
          rcases div_eq_zero_iff.mp h with h | h
          · norm_num at h
          · exact h)
      · norm_num at h
    · rcases mul_eq_zero.mp h with h | h
      · exact hd h
      · norm_num at h
  · rcases div_eq_zero_iff.mp h with h | h
    · exact hp h
    · norm_num at h

/-- With a nonzero `fuel_consumption_mpg` and a nonzero baseline cost, the
call succeeds and returns exactly the five entries in insertion order. -/
theorem calculate_eval (m d p : ℚ) (hm : m ≠ 0)
    (hc : base_fuel_cost m d p ≠ 0) :
    calculate_fuel_costs_by_grade m d p = .ok
      ([("A", 0), ("B", cost_difference m d p 7.2),
        ("C", cost_difference m d p 8.4), ("D", cost_difference m d p 9.8),
        ("E", cost_difference m d p 11.0)],
       [("A", 0),
        ("B", cost_difference m d p 7.2 / base_fuel_cost m d p * 100),
        ("C", cost_difference m d p 8.4 / base_fuel_cost m d p * 100),
        ("D", cost_difference m d p 9.8 / base_fuel_cost m d p * 100),
        ("E", cost_difference m d p 11.0 / base_fuel_cost m d p * 100)]) := by
  have hc' : (mpg_to_l_per_100km / m / 100) * (d * miles_to_km) * (p / 100) ≠ 0 := hc
  simp only [calculate_fuel_costs_by_grade, pydiv, if_neg hm, tyre_grades,
    gradeLoop, if_neg hc', cost_difference, base_fuel_cost,
    base_fuel_per_year_l, base_fuel_consumption_l_per_100km,
    fuel_increase_percentage, String.reduceEq, reduceIte]
  norm_num

/-! ### Algebraic helper lemmas -/

theorem cost_difference_eq (m d p rrc : ℚ) :
    cost_difference m d p rrc =
      base_fuel_cost m d p * fuel_increase_percentage rrc := by
  simp only [cost_difference, base_fuel_cost, base_fuel_per_year_l,
    base_fuel_consumption_l_per_100km]
  ring

theorem pct_eq (m d p rrc : ℚ) (hc : base_fuel_cost m d p ≠ 0) :
    cost_difference m d p rrc / base_fuel_cost m d p * 100 =
      fuel_increase_percentage rrc * 100 := by
  rw [cost_difference_eq, mul_div_cancel_left₀ _ hc]

theorem fuel_increase_B : fuel_increase_percentage 7.2 = 21 / 1300 := by
  simp only [fuel_increase_percentage, fuel_savings_rate, rrcA]
  norm_num

theorem fuel_increase_C : fuel_increase_percentage 8.4 = 57 / 1300 := by
  simp only [fuel_increase_percentage, fuel_savings_rate, rrcA]
  norm_num

theorem fuel_increase_D : fuel_increase_percentage 9.8 = 99 / 1300 := by
  simp only [fuel_increase_percentage, fuel_savings_rate, rrcA]
  norm_num

theorem fuel_increase_E : fuel_increase_percentage 11.0 = 135 / 1300 := by
  simp only [fuel_increase_percentage, fuel_savings_rate, rrcA]
  norm_num

theorem base_fuel_cost_pos (m d p : ℚ) (hm : 0 < m) (hd : 0 < d)
    (hp : 0 < p) : 0 < base_fuel_cost m d p := by
  simp only [base_fuel_cost, base_fuel_per_year_l,
    base_fuel_consumption_l_per_100km, mpg_to_l_per_100km, miles_to_km]
  positivity

/-! ### The estimator as the specification words it -/

/-- The estimator written from the specification's algorithm (section 4.1,
steps 1-6) rather than from the source, for comparison against the
embedding: baseConsumption = 282.48 / fuelEconomy; price divided by 100;
annual distance multiplied by 1.60934; for each grade other than A,
fuelIncreasePct = 0.015 * (((rrc - 6.5) / 6.5 * 100) / 10),
gradeConsumption = baseConsumption * (1 + fuelIncreasePct), grade volume
and cost computed analogously to the baseline, absoluteDelta = gradeCost -
baseCost and percentDelta = absoluteDelta / baseCost * 100; baseline
entries fixed at exactly 0; grade table A=6.5, B=7.2, C=8.4, D=9.8,
E=11.0. -/
def spec_estimate (fuelEconomy annualDistance fuelPrice : ℚ) :
    List (String × ℚ) × List (String × ℚ) :=
  let baseConsumption := 282.48 / fuelEconomy
  let priceMajor := fuelPrice / 100
  let distanceKm := annualDistance * 1.60934
  let baseAnnualVolume := (baseConsumption / 100) * distanceKm
  let baseCost := baseAnnualVolume * priceMajor
  let absoluteDelta := fun rrc : ℚ =>
    let fuelIncreasePct := 0.015 * ((rrc - 6.5) / 6.5 * 100 / 10)
    let gradeConsumption := baseConsumption * (1 + fuelIncreasePct)
    let gradeAnnualVolume := (gradeConsumption / 100) * distanceKm
    let gradeCost := gradeAnnualVolume * priceMajor
    gradeCost - baseCost
  let percentDelta := fun rrc : ℚ => absoluteDelta rrc / baseCost * 100
  ([("A", 0), ("B", absoluteDelta 7.2), ("C", absoluteDelta 8.4),
    ("D", absoluteDelta 9.8), ("E", absoluteDelta 11.0)],
   [("A", 0), ("B", percentDelta 7.2), ("C", percentDelta 8.4),
    ("D", percentDelta 9.8), ("E", percentDelta 11.0)])

/-! ### Claim theorems -/

/-- Claim C1: for every input with fuelEconomy, annualDistance and
fuelPrice all strictly positive, `calculate_fuel_costs_by_grade` computes
its results exactly by the spec's algorithm (`spec_estimate`). -/
theorem claim_C1_spec_refinement (m d p : ℚ) (hm : 0 < m) (hd : 0 < d)
    (hp : 0 < p) :
    calculate_fuel_costs_by_grade m d p = .ok (spec_estimate m d p) := by
  have hc := (base_fuel_cost_pos m d p hm hd hp).ne'
  rw [calculate_eval m d p hm.ne' hc]
  simp only [spec_estimate, Except.ok.injEq, Prod.mk.injEq, List.cons.injEq,
    cost_difference, base_fuel_cost, base_fuel_per_year_l,
    base_fuel_consumption_l_per_100km, fuel_increase_percentage,
    fuel_savings_rate, rrcA, mpg_to_l_per_100km, miles_to_km]

/-- Witness for C1 at fuelEconomy=40, annualDistance=12000,
fuelPrice=160. -/
theorem claim_C1_spec_refinement_witness :
    (0 : ℚ) < 40 ∧ (0 : ℚ) < 12000 ∧ (0 : ℚ) < 160 ∧
      calculate_fuel_costs_by_grade 40 12000 160 =
        .ok (spec_estimate 40 12000 160) :=
  ⟨by norm_num, by norm_num, by norm_num,
    claim_C1_spec_refinement 40 12000 160 (by norm_num) (by norm_num)
      (by norm_num)⟩

/-- Claim C7: for every input with all three values strictly positive, the
baseline entries of both returned mappings are exactly 0. -/
theorem claim_C7_baseline_zero (m d p : ℚ) (hm : 0 < m) (hd : 0 < d)
    (hp : 0 < p) :
    lookupGrade (absDeltas m d p) "A" = 0 ∧
      lookupGrade (pctDeltas m d p) "A" = 0 := by
  have hc := (base_fuel_cost_pos m d p hm hd hp).ne'
  simp [absDeltas, pctDeltas, calculate_eval m d p hm.ne' hc, lookupGrade,
    List.find?]

/-- Witness for C7 at fuelEconomy=40, annualDistance=12000,
fuelPrice=160. -/
theorem claim_C7_baseline_zero_witness :
    (0 : ℚ) < 40 ∧ (0 : ℚ) < 12000 ∧ (0 : ℚ) < 160 ∧
      (lookupGrade (absDeltas 40 12000 160) "A" = 0 ∧
        lookupGrade (pctDeltas 40 12000 160) "A" = 0) :=
  ⟨by norm_num, by norm_num, by norm_num,
    claim_C7_baseline_zero 40 12000 160 (by norm_num) (by norm_num)
      (by norm_num)⟩

/-- Claim C8: for every input with all three values strictly positive,
each of the two returned mappings has exactly the five keys
"A","B","C","D","E", inserted in the order A, B, C, D, E. -/
theorem claim_C8_keys (m d p : ℚ) (hm : 0 < m) (hd : 0 < d) (hp : 0 < p) :
    (absDeltas m d p).map Prod.fst = ["A", "B", "C", "D", "E"] ∧
      (pctDeltas m d p).map Prod.fst = ["A", "B", "C", "D", "E"] := by
  have hc := (base_fuel_cost_pos m d p hm hd hp).ne'
  simp [absDeltas, pctDeltas, calculate_eval m d p hm.ne' hc]

/-- Witness for C8 at fuelEconomy=40, annualDistance=12000,
fuelPrice=160. -/
theorem claim_C8_keys_witness :
    (0 : ℚ) < 40 ∧ (0 : ℚ) < 12000 ∧ (0 : ℚ) < 160 ∧
      ((absDeltas 40 12000 160).map Prod.fst = ["A", "B", "C", "D", "E"] ∧
        (pctDeltas 40 12000 160).map Prod.fst = ["A", "B", "C", "D", "E"]) :=
  ⟨by norm_num, by norm_num, by norm_num,
    claim_C8_keys 40 12000 160 (by norm_num) (by norm_num) (by norm_num)⟩

/-! ### Normalised forms of the two returned mappings -/

theorem absDeltas_eq (m d p : ℚ) (hm : m ≠ 0)
    (hc : base_fuel_cost m d p ≠ 0) :
    absDeltas m d p =
      [("A", 0), ("B", base_fuel_cost m d p * (21 / 1300)),
       ("C", base_fuel_cost m d p * (57 / 1300)),
       ("D", base_fuel_cost m d p * (99 / 1300)),
       ("E", base_fuel_cost m d p * (135 / 1300))] := by
  simp only [absDeltas, calculate_eval m d p hm hc, cost_difference_eq,
    fuel_increase_B, fuel_increase_C, fuel_increase_D, fuel_increase_E]

theorem pctDeltas_eq (m d p : ℚ) (hm : m ≠ 0)
    (hc : base_fuel_cost m d p ≠ 0) :
    pctDeltas m d p =
      [("A", 0), ("B", 21 / 13), ("C", 57 / 13), ("D", 99 / 13),
       ("E", 135 / 13)] := by
  simp only [pctDeltas, calculate_eval m d p hm hc, pct_eq _ _ _ _ hc,
    fuel_increase_B, fuel_increase_C, fuel_increase_D, fuel_increase_E]
  norm_num

/-- Claim C4: for strictly positive inputs, both returned mappings are
monotonically non-decreasing in grade order A, B, C, D, E. -/
theorem claim_C4_monotone (m d p : ℚ) (hm : 0 < m) (hd : 0 < d)
    (hp : 0 < p) :
    (lookupGrade (absDeltas m d p) "A" ≤ lookupGrade (absDeltas m d p) "B" ∧
     lookupGrade (absDeltas m d p) "B" ≤ lookupGrade (absDeltas m d p) "C" ∧
     lookupGrade (absDeltas m d p) "C" ≤ lookupGrade (absDeltas m d p) "D" ∧
     lookupGrade (absDeltas m d p) "D" ≤ lookupGrade (absDeltas m d p) "E") ∧
    (lookupGrade (pctDeltas m d p) "A" ≤ lookupGrade (pctDeltas m d p) "B" ∧
     lookupGrade (pctDeltas m d p) "B" ≤ lookupGrade (pctDeltas m d p) "C" ∧
     lookupGrade (pctDeltas m d p) "C" ≤ lookupGrade (pctDeltas m d p) "D" ∧
     lookupGrade (pctDeltas m d p) "D" ≤ lookupGrade (pctDeltas m d p) "E") := by
  have hC := base_fuel_cost_pos m d p hm hd hp
  rw [absDeltas_eq m d p hm.ne' hC.ne', pctDeltas_eq m d p hm.ne' hC.ne']
  simp only [lookupGrade, List.find?, String.reduceBEq]
  exact ⟨⟨mul_nonneg hC.le (by norm_num),
      mul_le_mul_of_nonneg_left (by norm_num) hC.le,
      mul_le_mul_of_nonneg_left (by norm_num) hC.le,
      mul_le_mul_of_nonneg_left (by norm_num) hC.le⟩,
    by norm_num, by norm_num, by norm_num, by norm_num⟩

/-- Witness for C4 at fuelEconomy=40, annualDistance=12000,
fuelPrice=160. -/
theorem claim_C4_monotone_witness :
    (0 : ℚ) < 40 ∧ (0 : ℚ) < 12000 ∧ (0 : ℚ) < 160 ∧
      ((lookupGrade (absDeltas 40 12000 160) "A" ≤
          lookupGrade (absDeltas 40 12000 160) "B" ∧
        lookupGrade (absDeltas 40 12000 160) "B" ≤
          lookupGrade (absDeltas 40 12000 160) "C" ∧
        lookupGrade (absDeltas 40 12000 160) "C" ≤
          lookupGrade (absDeltas 40 12000 160) "D" ∧
        lookupGrade (absDeltas 40 12000 160) "D" ≤
          lookupGrade (absDeltas 40 12000 160) "E") ∧
       (lookupGrade (pctDeltas 40 12000 160) "A" ≤
          lookupGrade (pctDeltas 40 12000 160) "B" ∧
        lookupGrade (pctDeltas 40 12000 160) "B" ≤
          lookupGrade (pctDeltas 40 12000 160) "C" ∧
        lookupGrade (pctDeltas 40 12000 160) "C" ≤
          lookupGrade (pctDeltas 40 12000 160) "D" ∧
        lookupGrade (pctDeltas 40 12000 160) "D" ≤
          lookupGrade (pctDeltas 40 12000 160) "E")) :=
  ⟨by norm_num, by norm_num, by norm_num,
    claim_C4_monotone 40 12000 160 (by norm_num) (by norm_num) (by norm_num)⟩

/-- Claim C5: scaling fuelPrice by a positive factor k scales every
non-baseline absoluteDelta by k and leaves the percentDelta mapping
unchanged. -/
theorem claim_C5_price_scaling (m d p k : ℚ) (hm : 0 < m) (hd : 0 < d)
    (hp : 0 < p) (hk : 0 < k) :
    (lookupGrade (absDeltas m d (p * k)) "B" =
        k * lookupGrade (absDeltas m d p) "B" ∧
      lookupGrade (absDeltas m d (p * k)) "C" =
        k * lookupGrade (absDeltas m d p) "C" ∧
      lookupGrade (absDeltas m d (p * k)) "D" =
        k * lookupGrade (absDeltas m d p) "D" ∧
      lookupGrade (absDeltas m d (p * k)) "E" =
        k * lookupGrade (absDeltas m d p) "E") ∧
    pctDeltas m d (p * k) = pctDeltas m d p := by
  have hC := base_fuel_cost_pos m d p hm hd hp
  have hC' := base_fuel_cost_pos m d (p * k) hm hd (mul_pos hp hk)
  have hscale : base_fuel_cost m d (p * k) = k * base_fuel_cost m d p := by
    simp only [base_fuel_cost, base_fuel_per_year_l,
      base_fuel_consumption_l_per_100km]
    ring
  rw [absDeltas_eq m d p hm.ne' hC.ne', absDeltas_eq m d (p * k) hm.ne' hC'.ne',
    pctDeltas_eq m d p hm.ne' hC.ne', pctDeltas_eq m d (p * k) hm.ne' hC'.ne']
  simp only [lookupGrade, List.find?, String.reduceBEq, hscale]
  norm_num
  refine ⟨?_, ?_, ?_, ?_⟩ <;> ring

/-- Witness for C5 at fuelEconomy=40, annualDistance=12000, fuelPrice=160,
k=3. -/
theorem claim_C5_price_scaling_witness :
    (0 : ℚ) < 40 ∧ (0 : ℚ) < 12000 ∧ (0 : ℚ) < 160 ∧ (0 : ℚ) < 3 ∧
      ((lookupGrade (absDeltas 40 12000 (160 * 3)) "B" =
          3 * lookupGrade (absDeltas 40 12000 160) "B" ∧
        lookupGrade (absDeltas 40 12000 (160 * 3)) "C" =
          3 * lookupGrade (absDeltas 40 12000 160) "C" ∧
        lookupGrade (absDeltas 40 12000 (160 * 3)) "D" =
          3 * lookupGrade (absDeltas 40 12000 160) "D" ∧
        lookupGrade (absDeltas 40 12000 (160 * 3)) "E" =
          3 * lookupGrade (absDeltas 40 12000 160) "E") ∧
       pctDeltas 40 12000 (160 * 3) = pctDeltas 40 12000 160) :=
  ⟨by norm_num, by norm_num, by norm_num, by norm_num,
    claim_C5_price_scaling 40 12000 160 3 (by norm_num) (by norm_num)
      (by norm_num) (by norm_num)⟩

/-- Claim C6: scaling annualDistance by a positive factor k scales every
absoluteDelta (all five grades) by k and leaves every percentDelta
unchanged. -/
theorem claim_C6_distance_scaling (m d p k : ℚ) (hm : 0 < m) (hd : 0 < d)
    (hp : 0 < p) (hk : 0 < k) :
    (lookupGrade (absDeltas m (d * k) p) "A" =
        k * lookupGrade (absDeltas m d p) "A" ∧
      lookupGrade (absDeltas m (d * k) p) "B" =
        k * lookupGrade (absDeltas m d p) "B" ∧
      lookupGrade (absDeltas m (d * k) p) "C" =
        k * lookupGrade (absDeltas m d p) "C" ∧
      lookupGrade (absDeltas m (d * k) p) "D" =
        k * lookupGrade (absDeltas m d p) "D" ∧
      lookupGrade (absDeltas m (d * k) p) "E" =
        k * lookupGrade (absDeltas m d p) "E") ∧
    pctDeltas m (d * k) p = pctDeltas m d p := by
  have hC := base_fuel_cost_pos m d p hm hd hp
  have hC' := base_fuel_cost_pos m (d * k) p hm (mul_pos hd hk) hp
  have hscale : base_fuel_cost m (d * k) p = k * base_fuel_cost m d p := by
    simp only [base_fuel_cost, base_fuel_per_year_l,
      base_fuel_consumption_l_per_100km]
    ring
  rw [absDeltas_eq m d p hm.ne' hC.ne', absDeltas_eq m (d * k) p hm.ne' hC'.ne',
    pctDeltas_eq m d p hm.ne' hC.ne', pctDeltas_eq m (d * k) p hm.ne' hC'.ne']
  simp only [lookupGrade, List.find?, String.reduceBEq, hscale]
  norm_num
  refine ⟨?_, ?_, ?_, ?_⟩ <;> ring

/-- Witness for C6 at fuelEconomy=40, annualDistance=12000, fuelPrice=160,
k=2. -/
theorem claim_C6_distance_scaling_witness :
    (0 : ℚ) < 40 ∧ (0 : ℚ) < 12000 ∧ (0 : ℚ) < 160 ∧ (0 : ℚ) < 2 ∧
      ((lookupGrade (absDeltas 40 (12000 * 2) 160) "A" =
          2 * lookupGrade (absDeltas 40 12000 160) "A" ∧
        lookupGrade (absDeltas 40 (12000 * 2) 160) "B" =
          2 * lookupGrade (absDeltas 40 12000 160) "B" ∧
        lookupGrade (absDeltas 40 (12000 * 2) 160) "C" =
          2 * lookupGrade (absDeltas 40 12000 160) "C" ∧
        lookupGrade (absDeltas 40 (12000 * 2) 160) "D" =
          2 * lookupGrade (absDeltas 40 12000 160) "D" ∧
        lookupGrade (absDeltas 40 (12000 * 2) 160) "E" =
          2 * lookupGrade (absDeltas 40 12000 160) "E") ∧
       pctDeltas 40 (12000 * 2) 160 = pctDeltas 40 12000 160) :=
  ⟨by norm_num, by norm_num, by norm_num, by norm_num,
    claim_C6_distance_scaling 40 12000 160 2 (by norm_num) (by norm_num)
      (by norm_num) (by norm_num)⟩

/-- Claim C10: for any two strictly positive inputs the percentDelta
mappings are identical, with fixed values B=21/13 (≈1.615), C=57/13
(≈4.385), D=99/13 (≈7.615), E=135/13 (≈10.385), within 1/1000 of the
stated approximations. -/
theorem claim_C10_pct_independent (m₁ d₁ p₁ m₂ d₂ p₂ : ℚ) (hm₁ : 0 < m₁)
    (hd₁ : 0 < d₁) (hp₁ : 0 < p₁) (hm₂ : 0 < m₂) (hd₂ : 0 < d₂)
    (hp₂ : 0 < p₂) :
    pctDeltas m₁ d₁ p₁ = pctDeltas m₂ d₂ p₂ ∧
    |lookupGrade (pctDeltas m₁ d₁ p₁) "B" - 1.615| < 1 / 1000 ∧
    |lookupGrade (pctDeltas m₁ d₁ p₁) "C" - 4.385| < 1 / 1000 ∧
    |lookupGrade (pctDeltas m₁ d₁ p₁) "D" - 7.615| < 1 / 1000 ∧
    |lookupGrade (pctDeltas m₁ d₁ p₁) "E" - 10.385| < 1 / 1000 := by
  have hC₁ := base_fuel_cost_pos m₁ d₁ p₁ hm₁ hd₁ hp₁
  have hC₂ := base_fuel_cost_pos m₂ d₂ p₂ hm₂ hd₂ hp₂
  rw [pctDeltas_eq m₁ d₁ p₁ hm₁.ne' hC₁.ne',
    pctDeltas_eq m₂ d₂ p₂ hm₂.ne' hC₂.ne']
  simp only [lookupGrade, List.find?, String.reduceBEq]
  norm_num [abs_lt]

/-- Witness for C10 at two distinct positive inputs. -/
theorem claim_C10_pct_independent_witness :
    (0 : ℚ) < 40 ∧ (0 : ℚ) < 12000 ∧ (0 : ℚ) < 160 ∧ (0 : ℚ) < 55 ∧
      (0 : ℚ) < 9000 ∧ (0 : ℚ) < 145 ∧
      (pctDeltas 40 12000 160 = pctDeltas 55 9000 145 ∧
       |lookupGrade (pctDeltas 40 12000 160) "B" - 1.615| < 1 / 1000 ∧
       |lookupGrade (pctDeltas 40 12000 160) "C" - 4.385| < 1 / 1000 ∧
       |lookupGrade (pctDeltas 40 12000 160) "D" - 7.615| < 1 / 1000 ∧
       |lookupGrade (pctDeltas 40 12000 160) "E" - 10.385| < 1 / 1000) :=
  ⟨by norm_num, by norm_num, by norm_num, by norm_num, by norm_num,
    by norm_num,
    claim_C10_pct_independent 40 12000 160 55 9000 145 (by norm_num)
      (by norm_num) (by norm_num) (by norm_num) (by norm_num) (by norm_num)⟩

/-! ### Error behaviour -/

theorem calculate_error_of_mpg_zero (d p : ℚ) :
    calculate_fuel_costs_by_grade 0 d p = .error .zeroDivisionError := by
  simp [calculate_fuel_costs_by_grade, pydiv]

theorem calculate_error_of_cost_zero (m d p : ℚ) (hm : m ≠ 0)
    (hc : base_fuel_cost m d p = 0) :
    calculate_fuel_costs_by_grade m d p = .error .zeroDivisionError := by
  have hc' : (mpg_to_l_per_100km / m / 100) * (d * miles_to_km) * (p / 100)
      = 0 := hc
  simp only [calculate_fuel_costs_by_grade, pydiv, if_neg hm, tyre_grades,
    gradeLoop, String.reduceEq, reduceIte, hc', if_pos]

theorem calculate_error_of_zero (m d p : ℚ) (h : m = 0 ∨ d = 0 ∨ p = 0) :
    calculate_fuel_costs_by_grade m d p = .error .zeroDivisionError := by
  by_cases hm : m = 0
  · subst hm
    exact calculate_error_of_mpg_zero d p
  · apply calculate_error_of_cost_zero m d p hm
    rcases h with h | h | h
    · exact absurd h hm
    · simp [base_fuel_cost, base_fuel_per_year_l, h]
    · simp [base_fuel_cost, h]

theorem calculate_isOk_of_ne (m d p : ℚ) (hm : m ≠ 0) (hd : d ≠ 0)
    (hp : p ≠ 0) : (calculate_fuel_costs_by_grade m d p).isOk = true := by
  rw [calculate_eval m d p hm (base_fuel_cost_ne_zero m d p hm hd hp)]
  rfl

theorem calculate_ne_invalidInput (m d p : ℚ) :
    calculate_fuel_costs_by_grade m d p ≠ .error .invalidInput := by
  by_cases hm : m = 0
  · subst hm
    rw [calculate_error_of_mpg_zero d p]
    simp
  by_cases hc : base_fuel_cost m d p = 0
  · rw [calculate_error_of_cost_zero m d p hm hc]
    simp
  · rw [calculate_eval m d p hm hc]
    simp

/-- Claim C2 counterexample: at fuelEconomy=40, annualDistance=-1,
fuelPrice=160 (a non-positive input), the call returns a result normally
instead of failing with the InvalidInput domain error. -/
theorem claim_C2_counterexample :
    (calculate_fuel_costs_by_grade 40 (-1) 160).isOk = true ∧
      calculate_fuel_costs_by_grade 40 (-1) 160 ≠ .error .invalidInput :=
  ⟨calculate_isOk_of_ne 40 (-1) 160 (by norm_num) (by norm_num) (by norm_num),
    calculate_ne_invalidInput 40 (-1) 160⟩

/-- Claim C2 (amended): for every input in which at least one of the three
values is ≤ 0, the call never fails with the InvalidInput domain error:
when one of the values is exactly 0 it fails with ZeroDivisionError, and
otherwise (all values nonzero) it returns a result normally. -/
theorem claim_C2_amended (m d p : ℚ) (h : m ≤ 0 ∨ d ≤ 0 ∨ p ≤ 0) :
    calculate_fuel_costs_by_grade m d p ≠ .error .invalidInput ∧
    ((m = 0 ∨ d = 0 ∨ p = 0) →
      calculate_fuel_costs_by_grade m d p = .error .zeroDivisionError) ∧
    (m ≠ 0 → d ≠ 0 → p ≠ 0 →
      (calculate_fuel_costs_by_grade m d p).isOk = true) :=
  ⟨calculate_ne_invalidInput m d p, calculate_error_of_zero m d p,
    calculate_isOk_of_ne m d p⟩

/-- Witness for the amended C2 at fuelEconomy=40, annualDistance=-1,
fuelPrice=160. -/
theorem claim_C2_amended_witness :
    ((40 : ℚ) ≤ 0 ∨ (-1 : ℚ) ≤ 0 ∨ (160 : ℚ) ≤ 0) ∧
      (calculate_fuel_costs_by_grade 40 (-1) 160 ≠ .error .invalidInput ∧
       (((40 : ℚ) = 0 ∨ (-1 : ℚ) = 0 ∨ (160 : ℚ) = 0) →
         calculate_fuel_costs_by_grade 40 (-1) 160 =
           .error .zeroDivisionError) ∧
       ((40 : ℚ) ≠ 0 → (-1 : ℚ) ≠ 0 → (160 : ℚ) ≠ 0 →
         (calculate_fuel_costs_by_grade 40 (-1) 160).isOk = true)) :=
  ⟨Or.inr (Or.inl (by norm_num)),
    claim_C2_amended 40 (-1) 160 (Or.inr (Or.inl (by norm_num)))⟩

/-- Claim C9 counterexample: at fuelEconomy=40, annualDistance=0,
fuelPrice=160 the mpg value is nonzero, yet the call does not return
normally: it fails with ZeroDivisionError (raised by
`cost_difference / base_fuel_cost`). -/
theorem claim_C9_counterexample :
    calculate_fuel_costs_by_grade 40 0 160 = .error .zeroDivisionError ∧
      (40 : ℚ) ≠ 0 :=
  ⟨calculate_error_of_zero 40 0 160 (Or.inr (Or.inl rfl)), by norm_num⟩

/-- Claim C9 (amended): the function performs no input validation and
fails with a division-by-zero arithmetic error exactly when
fuel_consumption_mpg, annual_mileage or fuel_price equals 0 (the last two
make base_fuel_cost zero, so the percentage division raises); for every
other input, including negative values, it returns normally; it never
raises a domain error. -/
theorem claim_C9_amended (m d p : ℚ) :
    ((m = 0 ∨ d = 0 ∨ p = 0) ↔ calculate_fuel_costs_by_grade m d p =
      .error .zeroDivisionError) ∧
    calculate_fuel_costs_by_grade m d p ≠ .error .invalidInput := by
  refine ⟨⟨calculate_error_of_zero m d p, ?_⟩, calculate_ne_invalidInput m d p⟩
  intro herr
  by_contra hno
  push_neg at hno
  have := calculate_isOk_of_ne m d p hno.1 hno.2.1 hno.2.2
  rw [herr] at this
  simp [Except.isOk, Except.toBool] at this

/-- Witness for the amended C9 at fuelEconomy=40, annualDistance=0,
fuelPrice=160. -/
theorem claim_C9_amended_witness :
    (((40 : ℚ) = 0 ∨ (0 : ℚ) = 0 ∨ (160 : ℚ) = 0) ↔
      calculate_fuel_costs_by_grade 40 0 160 = .error .zeroDivisionError) ∧
      calculate_fuel_costs_by_grade 40 0 160 ≠ .error .invalidInput :=
  claim_C9_amended 40 0 160

/-! ### The concrete scenario of the spec -/

theorem pctE_concrete :
    lookupGrade (pctDeltas 40 12000 1.60) "E" = 135 / 13 := by
  have hc : base_fuel_cost 40 12000 1.60 ≠ 0 :=
    base_fuel_cost_ne_zero 40 12000 1.60 (by norm_num) (by norm_num)
      (by norm_num)
  rw [pctDeltas_eq 40 12000 1.60 (by norm_num) hc]
  simp only [lookupGrade, List.find?, String.reduceBEq]

theorem pctE_concrete160 :
    lookupGrade (pctDeltas 40 12000 160) "E" = 135 / 13 := by
  have hc : base_fuel_cost 40 12000 160 ≠ 0 :=
    base_fuel_cost_ne_zero 40 12000 160 (by norm_num) (by norm_num)
      (by norm_num)
  rw [pctDeltas_eq 40 12000 160 (by norm_num) hc]
  simp only [lookupGrade, List.find?, String.reduceBEq]

/-- Claim C3 counterexample: at fuelEconomy=40, annualDistance=12000,
fuelPrice=1.60 the code's values are not the claimed ones. The grade-E
percentDelta is 135/13 ≈ 10.385, more than 9 away from the claimed 0.675;
the baseline annual volume is 1363.8190896 L, more than 1 away from the
claimed 1365.1 L; and the baseline cost is ≈ 21.82 (the function divides
the price 1.60 by 100), more than 2000 away from the claimed 2184.2. -/
theorem claim_C3_counterexample :
    lookupGrade (pctDeltas 40 12000 1.60) "E" = 135 / 13 ∧
    ¬ |(135 / 13 : ℚ) - 0.675| < 9 ∧
    base_fuel_per_year_l 40 12000 = 852386931 / 625000 ∧
    ¬ |(852386931 / 625000 : ℚ) - 1365.1| < 1 ∧
    base_fuel_cost 40 12000 1.60 = 852386931 / 39062500 ∧
    ¬ |(852386931 / 39062500 : ℚ) - 2184.2| < 2000 := by
  refine ⟨pctE_concrete, by rw [abs_lt]; norm_num, ?_, by rw [abs_lt]; norm_num,
    ?_, by rw [abs_lt]; norm_num⟩
  · simp only [base_fuel_per_year_l, base_fuel_consumption_l_per_100km,
      mpg_to_l_per_100km, miles_to_km]
    norm_num
  · simp only [base_fuel_cost, base_fuel_per_year_l,
      base_fuel_consumption_l_per_100km, mpg_to_l_per_100km, miles_to_km]
    norm_num

/-- Claim C3 (amended): for fuelEconomy=40, annualDistance=12000 and the
fuel price passed as 160 (pence; £1.60/litre after the function's /100),
the baseline consumption is exactly 7.062 L/100km, the baseline annual
volume is ≈ 1363.82 L, the baseline annual cost is ≈ £2182.11, and the
grade-E percentDelta is 135/13 ≈ +10.385% of baseline cost. (With the
price passed literally as 1.60, the baseline cost is ≈ £21.82 instead.) -/
theorem claim_C3_amended :
    base_fuel_consumption_l_per_100km 40 = 7.062 ∧
    |base_fuel_per_year_l 40 12000 - 1363.82| < 1 / 100 ∧
    |base_fuel_cost 40 12000 160 - 2182.11| < 1 / 100 ∧
    |base_fuel_cost 40 12000 1.60 - 21.8211| < 1 / 100 ∧
    lookupGrade (pctDeltas 40 12000 160) "E" = 135 / 13 ∧
    |(135 / 13 : ℚ) - 10.385| < 1 / 1000 := by
  refine ⟨?_, ?_, ?_, ?_, pctE_concrete160, by rw [abs_lt]; norm_num⟩
  · simp only [base_fuel_consumption_l_per_100km, mpg_to_l_per_100km]
    norm_num
  · simp only [base_fuel_per_year_l, base_fuel_consumption_l_per_100km,
      mpg_to_l_per_100km, miles_to_km]
    rw [abs_lt]
    norm_num
  · simp only [base_fuel_cost, base_fuel_per_year_l,
      base_fuel_consumption_l_per_100km, mpg_to_l_per_100km, miles_to_km]
    rw [abs_lt]
    norm_num
  · simp only [base_fuel_cost, base_fuel_per_year_l,
      base_fuel_consumption_l_per_100km, mpg_to_l_per_100km, miles_to_km]
    rw [abs_lt]
    norm_num

end MPG
